import Mathlib

/-!
Shallow embedding of the resilient market-data acquisition pipeline of the
repository (src/data_loader.py `RobustDataLoader`, src/app.py `DataLoader`,
src/database.py `Database`), together with proofs of the spec's claims.

Modelling conventions:
* Prices and dividend amounts are rationals (`ℚ`); Python `round(x, 2)` is
  modelled by `round2` (round-half-up on hundredths over `ℚ`).
* A provider access that may raise is an `Except Unit` value; `ticker.history`,
  `ticker.info` and `ticker.dividends` are the three oracles of `TickerData`.
* Division on `ℚ` is total with `x / 0 = 0`.
* The wall-clock timestamp `datetime.now()` is an explicit parameter `now : ℕ`.
-/

/-- Python `round(x, 2)` as used on the record fields, over `ℚ`:
round to the nearest hundredth. -/
def round2 (x : ℚ) : ℚ := ((round (x * 100) : ℤ) : ℚ) / 100

/-- `RobustDataLoader.ativos_monitorados`: category → monitored symbols
(src/data_loader.py lines 13-17). -/
def ativos_monitorados : List (String × List String) :=
  [("FII", ["MXRF11.SA", "HGLG11.SA", "KNRI11.SA", "VISC11.SA", "RBRP11.SA", "SDIL11.SA"]),
   ("ETF", ["BOVA11.SA", "DIVO11.SA", "SMAL11.SA", "IVVB11.SA"]),
   ("ACAO", ["VALE3.SA", "PETR4.SA", "BBAS3.SA", "ITUB4.SA", "TAEE11.SA"])]

/-- `RobustDataLoader.nomes_fallback`: symbol → fallback display name
(src/data_loader.py lines 20-36). -/
def nomes_fallback : List (String × String) :=
  [("VALE3.SA", "Vale SA"),
   ("PETR4.SA", "Petrobras"),
   ("BBAS3.SA", "Banco do Brasil"),
   ("ITUB4.SA", "Itaú Unibanco"),
   ("TAEE11.SA", "Taesa"),
   ("MXRF11.SA", "Maxi Renda FII"),
   ("HGLG11.SA", "CSHG Logística"),
   ("KNRI11.SA", "Kinea Renda Imobiliária"),
   ("VISC11.SA", "Vinci Shopping Centers"),
   ("RBRP11.SA", "RBR Properties"),
   ("SDIL11.SA", "SDI Dividendos"),
   ("BOVA11.SA", "ETF Ibovespa"),
   ("DIVO11.SA", "ETF Dividendos"),
   ("SMAL11.SA", "ETF Small Caps"),
   ("IVVB11.SA", "ETF S&P 500")]

/-- The `mock_prices` table of `RobustDataLoader._get_mock_price`
(src/data_loader.py lines 170-176). -/
def mock_prices : List (String × ℚ) :=
  [("VALE3.SA", 68.90), ("PETR4.SA", 37.50), ("BBAS3.SA", 57.80),
   ("ITUB4.SA", 33.45), ("TAEE11.SA", 41.20), ("MXRF11.SA", 10.25),
   ("HGLG11.SA", 158.30), ("KNRI11.SA", 134.50), ("VISC11.SA", 94.80),
   ("RBRP11.SA", 86.90), ("SDIL11.SA", 106.75), ("BOVA11.SA", 115.40),
   ("DIVO11.SA", 98.60), ("SMAL11.SA", 52.30), ("IVVB11.SA", 245.80)]

/-- `RobustDataLoader._get_mock_price`: table lookup with default 10.0
(src/data_loader.py lines 168-177). -/
def _get_mock_price (simbolo : String) : ℚ :=
  (mock_prices.lookup simbolo).getD 10

/-- Substring test on character lists (Python `pat in s`). -/
def hasSubstr : List Char → List Char → Bool
  | [], pat => pat.isEmpty
  | c :: rest, pat => pat.isPrefixOf (c :: rest) || hasSubstr rest pat

/-- Python substring containment `pat in s` on strings. -/
def strContains (s pat : String) : Bool := hasSubstr s.data pat.data

/-- `RobustDataLoader._get_frequencia_pagamento(simbolo)`: frequency label from
the SYMBOL string (src/data_loader.py lines 161-166): if the symbol contains
"11" then "Mensal" when it contains "FII" else "Trimestral";
otherwise "Trimestral/Semestral". -/
def _get_frequencia_pagamento (simbolo : String) : String :=
  if strContains simbolo "11" then
    if strContains simbolo "FII" then "Mensal" else "Trimestral"
  else "Trimestral/Semestral"

/-- The `frequencias` category table of `DataLoader._get_frequencia_pagamento`
in src/app.py lines 94-98. -/
def frequencias : List (String × String) :=
  [("FII", "Mensal"), ("ETF", "Trimestral"), ("ACAO", "Trimestral/Semestral")]

/-- `DataLoader._get_frequencia_pagamento(tipo)` of src/app.py lines 92-99:
frequency label from the CATEGORY, default "N/A". -/
def app_get_frequencia_pagamento (tipo : String) : String :=
  (frequencias.lookup tipo).getD "N/A"

/-- The `tipo` field computation
`next((k for k, v in self.ativos_monitorados.items() if simbolo in v), 'OUTRO')`
(src/data_loader.py lines 105 and 128). -/
def tipo_of (simbolo : String) : String :=
  match ativos_monitorados.find? (fun kv => kv.2.contains simbolo) with
  | some kv => kv.1
  | none => "OUTRO"

/-- One daily price bar of the provider history (`Open` and `Close` columns). -/
structure Bar where
  opn : ℚ
  close : ℚ
deriving Repr, DecidableEq

instance : Inhabited Bar := ⟨⟨0, 0⟩⟩

/-- Provider metadata dictionary (`ticker.info`): `longName` and `sector` keys,
each possibly absent. -/
structure TickerInfo where
  longName : Option String
  sector : Option String

/-- The three provider accesses made per symbol; each may raise (`Except.error`). -/
structure TickerData where
  hist : Except Unit (List Bar)
  info : Except Unit TickerInfo
  dividends : Except Unit (List ℚ)

/-- One Quote Record (the dict built by the loaders / one `ativos` row). -/
structure Ativo where
  simbolo : String
  nome : String
  tipo : String
  preco_atual : ℚ
  dividend_yield : ℚ
  ultimo_dividendo : ℚ
  frequencia_pagamento : String
  setor : String
  variacao_dia : ℚ
  atualizado_em : ℕ
deriving Repr, DecidableEq

/-- Python `s.replace(pat, rep)` over character lists, scanning left to right
and replacing every non-overlapping occurrence. `fuel` only bounds the number
of scanning steps so that the recursion is structural; every step consumes at
least one character, so `s.length` steps always suffice. -/
def replaceChars (pat rep : List Char) : ℕ → List Char → List Char
  | _, [] => []
  | 0, s => s
  | fuel + 1, c :: rest =>
    if pat.isPrefixOf (c :: rest) && !pat.isEmpty then
      rep ++ replaceChars pat rep fuel ((c :: rest).drop pat.length)
    else
      c :: replaceChars pat rep fuel rest

/-- Python `s.replace(pat, rep)` on strings (the source only uses it with the
non-empty pattern ".SA"). -/
def pyReplace (s pat rep : String) : String :=
  ⟨replaceChars pat.data rep.data s.data.length s.data⟩

/-- Pandas `l.tail(4)`: the last at-most-4 entries. -/
def tail4 (l : List ℚ) : List ℚ := l.drop (l.length - 4)

/-- Pandas `.mean()`: sum divided by length. -/
def listMean (l : List ℚ) : ℚ := l.sum / l.length

/-- `RobustDataLoader._safe_dividend_calc` (src/data_loader.py lines 140-149),
identical to `DataLoader._estimate_dividend_yield` (src/app.py lines 71-80):
0.0 when the dividends access raises, the history is empty or the price is not
positive; otherwise `avg(tail(4)) * 12 / price * 100` (unrounded here; the
caller rounds). -/
def _safe_dividend_calc (dividends : Except Unit (List ℚ)) (current_price : ℚ) : ℚ :=
  match dividends with
  | Except.error _ => 0
  | Except.ok divs =>
      if 0 < divs.length ∧ 0 < current_price then
        (listMean (tail4 divs) * 12 / current_price) * 100
      else 0

/-- `RobustDataLoader._safe_last_dividend` (src/data_loader.py lines 151-159). -/
def _safe_last_dividend (dividends : Except Unit (List ℚ)) : ℚ :=
  match dividends with
  | Except.error _ => 0
  | Except.ok divs => if 0 < divs.length then divs.getLastD 0 else 0

/-- `RobustDataLoader._get_yfinance_data` (src/data_loader.py lines 72-117):
`none` when the history access raises or returns an empty frame; otherwise the
live-path record. The metadata sub-access falls back to
`nomes_fallback.get(simbolo, simbolo)` and sector "N/A" when it raises. -/
def _get_yfinance_data (simbolo : String) (ticker : TickerData) (now : ℕ) : Option Ativo :=
  match ticker.hist with
  | Except.error _ => none
  | Except.ok hist =>
    if hist.length < 1 then none
    else
      let preco_atual := (hist.getLastD default).close
      let preco_anterior :=
        if 1 < hist.length then (hist.getLastD default).opn else (hist.headD default).close
      let variacao := ((preco_atual - preco_anterior) / preco_anterior) * 100
      let nome_setor :=
        match ticker.info with
        | Except.ok info =>
            (info.longName.getD ((nomes_fallback.lookup simbolo).getD simbolo),
             info.sector.getD "N/A")
        | Except.error _ => ((nomes_fallback.lookup simbolo).getD simbolo, "N/A")
      some {
        simbolo := pyReplace simbolo ".SA" ""
        nome := nome_setor.1
        tipo := tipo_of simbolo
        preco_atual := round2 preco_atual
        dividend_yield := round2 (_safe_dividend_calc ticker.dividends preco_atual)
        ultimo_dividendo := round2 (_safe_last_dividend ticker.dividends)
        frequencia_pagamento := _get_frequencia_pagamento simbolo
        setor := nome_setor.2
        variacao_dia := round2 variacao
        atualizado_em := now }

/-- `RobustDataLoader._get_fallback_data` (src/data_loader.py lines 119-138):
the synthetic record built from the static tables (its `try` body is total, so
it always returns a record). -/
def _get_fallback_data (simbolo : String) (now : ℕ) : Option Ativo :=
  some {
    simbolo := pyReplace simbolo ".SA" ""
    nome := (nomes_fallback.lookup simbolo).getD simbolo
    tipo := tipo_of simbolo
    preco_atual := _get_mock_price simbolo
    dividend_yield := 6.5
    ultimo_dividendo := 0.50
    frequencia_pagamento := _get_frequencia_pagamento simbolo
    setor := "N/A"
    variacao_dia := 0
    atualizado_em := now }

/-- The per-symbol body of `RobustDataLoader.get_ativos_info`
(src/data_loader.py lines 52-56): primary provider first, static fallback
when it yields nothing. -/
def processar_simbolo (simbolo : String) (ticker : TickerData) (now : ℕ) : Option Ativo :=
  match _get_yfinance_data simbolo ticker now with
  | some dados => some dados
  | none => _get_fallback_data simbolo now

/-- The iteration order of `get_ativos_info`: every symbol of every category,
in registry insertion order. -/
def registry_simbolos : List String := (ativos_monitorados.map Prod.snd).flatten

/-- The collection loop of `RobustDataLoader.get_ativos_info`
(src/data_loader.py lines 42-68): per symbol, run the (possibly raising) body;
an exception (`Except.error`) is caught and the loop continues; a `none`
outcome is logged and skipped; a record is appended. -/
def collect (step : String → Except Unit (Option Ativo)) : List String → List Ativo
  | [] => []
  | s :: rest =>
    match step s with
    | Except.error _ => collect step rest
    | Except.ok none => collect step rest
    | Except.ok (some dados) => dados :: collect step rest

/-- `RobustDataLoader.get_ativos_info` (src/data_loader.py lines 38-70),
with the per-symbol body abstracted as `step`. -/
def get_ativos_info (step : String → Except Unit (Option Ativo)) : List Ativo :=
  collect step registry_simbolos

/-- `INSERT OR REPLACE INTO ativos` for one row: `simbolo` is `UNIQUE`, so the
conflicting row (if any) is deleted and the new row inserted
(src/database.py lines 52-62). -/
def upsert (db : List Ativo) (ativo : Ativo) : List Ativo :=
  db.filter (fun x => x.simbolo != ativo.simbolo) ++ [ativo]

/-- `Database.salvar_ativos` (src/database.py lines 48-65): upsert each record
of the list in order. -/
def salvar_ativos (db : List Ativo) (ativos : List Ativo) : List Ativo :=
  ativos.foldl upsert db

/-- `Database.carregar_ativos` (src/database.py lines 67-72):
`SELECT * FROM ativos ORDER BY dividend_yield DESC`. -/
def carregar_ativos (db : List Ativo) : List Ativo :=
  db.mergeSort (fun x y => decide (y.dividend_yield ≤ x.dividend_yield))

/-- Step function used to witness the collection-loop theorem: raises on
symbol "PETR4.SA", yields nothing for every other symbol. -/
def stepW : String → Except Unit (Option Ativo) :=
  fun s => if s == "PETR4.SA" then Except.error () else Except.ok none

/-! ## Helper lemmas -/

theorem round2_zero : round2 0 = 0 := by
  norm_num [round2]

theorem round2_round2 (x : ℚ) : round2 (round2 x) = round2 x := by
  unfold round2
  rw [div_mul_cancel₀ _ (by norm_num : (100 : ℚ) ≠ 0), round_intCast]

theorem lookup_mem_snd {α β : Type} [BEq α] (l : List (α × β)) (a : α) (b : β)
    (h : List.lookup a l = some b) : b ∈ l.map Prod.snd := by
  induction l with
  | nil => simp [List.lookup] at h
  | cons p rest ih =>
    obtain ⟨k, v⟩ := p
    rw [List.lookup_cons] at h
    rw [List.map_cons]
    split at h
    · injection h with h
      subst h
      exact List.mem_cons_self _ _
    · exact List.mem_cons_of_mem _ (ih h)

theorem mock_price_mem_cases (q : ℚ) (hm : q ∈ mock_prices.map Prod.snd) :
    0 < q ∧ round2 q = q := by
  simp only [mock_prices, List.map_cons, List.map_nil, List.mem_cons,
    List.not_mem_nil, or_false] at hm
  rcases hm with h|h|h|h|h|h|h|h|h|h|h|h|h|h|h <;>
    (subst h; exact ⟨by norm_num, by norm_num [round2]⟩)

theorem mock_price_pos (simbolo : String) : 0 < _get_mock_price simbolo := by
  unfold _get_mock_price
  cases h : mock_prices.lookup simbolo with
  | none => norm_num
  | some q =>
    simpa using (mock_price_mem_cases q (lookup_mem_snd _ _ _ h)).1

theorem mock_price_round2 (simbolo : String) :
    round2 (_get_mock_price simbolo) = _get_mock_price simbolo := by
  unfold _get_mock_price
  cases h : mock_prices.lookup simbolo with
  | none => norm_num [round2]
  | some q =>
    simpa using (mock_price_mem_cases q (lookup_mem_snd _ _ _ h)).2

theorem yfinance_none (simbolo : String) (ticker : TickerData) (now : ℕ)
    (h : ticker.hist = Except.ok [] ∨ ticker.hist = Except.error ()) :
    _get_yfinance_data simbolo ticker now = none := by
  rcases h with h | h
  · simp only [_get_yfinance_data, h]
    rfl
  · simp only [_get_yfinance_data, h]

theorem yfinance_eq (simbolo : String) (ticker : TickerData) (now : ℕ) (hist : List Bar)
    (hh : ticker.hist = Except.ok hist) (hne : hist ≠ []) :
    _get_yfinance_data simbolo ticker now = some {
      simbolo := pyReplace simbolo ".SA" ""
      nome := match ticker.info with
        | Except.ok info => info.longName.getD ((nomes_fallback.lookup simbolo).getD simbolo)
        | Except.error _ => (nomes_fallback.lookup simbolo).getD simbolo
      tipo := tipo_of simbolo
      preco_atual := round2 (hist.getLastD default).close
      dividend_yield := round2 (_safe_dividend_calc ticker.dividends (hist.getLastD default).close)
      ultimo_dividendo := round2 (_safe_last_dividend ticker.dividends)
      frequencia_pagamento := _get_frequencia_pagamento simbolo
      setor := match ticker.info with
        | Except.ok info => info.sector.getD "N/A"
        | Except.error _ => "N/A"
      variacao_dia := round2 ((((hist.getLastD default).close -
          (if 1 < hist.length then (hist.getLastD default).opn else (hist.headD default).close)) /
          (if 1 < hist.length then (hist.getLastD default).opn else (hist.headD default).close)) * 100)
      atualizado_em := now } := by
  have hlen : ¬ hist.length < 1 := by
    have := List.length_pos.mpr hne
    omega
  simp only [_get_yfinance_data, hh]
  rw [if_neg hlen]
  cases hi : ticker.info with
  | ok info => rfl
  | error e => rfl

/-- C1: when the primary provider returns an empty (or raising) price history,
the Quote Fetcher returns the deterministic static fallback record: mock-table
price (10.0 when the symbol is absent), yield 6.5, last dividend 0.50, day
change 0.0, unknown-sector sentinel "N/A", and the static fallback display name
(the raw symbol when no fallback name exists). -/
theorem C1_fallback_record (simbolo : String) (ticker : TickerData) (now : ℕ)
    (h : ticker.hist = Except.ok [] ∨ ticker.hist = Except.error ()) :
    processar_simbolo simbolo ticker now = some {
      simbolo := pyReplace simbolo ".SA" ""
      nome := (nomes_fallback.lookup simbolo).getD simbolo
      tipo := tipo_of simbolo
      preco_atual := (mock_prices.lookup simbolo).getD 10
      dividend_yield := 6.5
      ultimo_dividendo := 0.50
      frequencia_pagamento := _get_frequencia_pagamento simbolo
      setor := "N/A"
      variacao_dia := 0
      atualizado_em := now } := by
  unfold processar_simbolo
  rw [yfinance_none simbolo ticker now h]
  rfl

/-- Witness for C1 at the FII symbol MXRF11.SA with an empty price history. -/
theorem C1_fallback_record_witness :
    processar_simbolo "MXRF11.SA" ⟨Except.ok [], Except.error (), Except.error ()⟩ 0 =
      some { simbolo := "MXRF11", nome := "Maxi Renda FII", tipo := "FII",
             preco_atual := 10.25, dividend_yield := 6.5, ultimo_dividendo := 0.50,
             frequencia_pagamento := "Trimestral", setor := "N/A", variacao_dia := 0,
             atualizado_em := 0 } := by
  rw [C1_fallback_record "MXRF11.SA" ⟨Except.ok [], Except.error (), Except.error ()⟩ 0
    (Or.inl rfl)]
  rfl

/-- C2: the claim says the payment-frequency label is a pure function of the
registry category (FUND maps to "Mensal"). The code of
`RobustDataLoader._get_frequencia_pagamento` instead inspects the SYMBOL
string: it tests for the substring "FII" inside the ticker symbol, which never
occurs, so the FII symbol MXRF11.SA gets "Trimestral" rather than "Mensal",
and the EQUITY symbol TAEE11.SA (which contains "11") also gets "Trimestral"
rather than "Trimestral/Semestral". The category-table version in src/app.py
(`app_get_frequencia_pagamento`) does map FII to "Mensal", matching the
function's own docstring ("Determina frequência baseada no tipo") and comment
("# FII ou ETF"), so the symbol-string version is a slip in the code. -/
theorem C2_frequencia_code_bug :
    tipo_of "MXRF11.SA" = "FII" ∧
    _get_frequencia_pagamento "MXRF11.SA" = "Trimestral" ∧
    tipo_of "TAEE11.SA" = "ACAO" ∧
    _get_frequencia_pagamento "TAEE11.SA" = "Trimestral" ∧
    app_get_frequencia_pagamento "FII" = "Mensal" ∧
    app_get_frequencia_pagamento "ETF" = "Trimestral" ∧
    app_get_frequencia_pagamento "ACAO" = "Trimestral/Semestral" :=
  ⟨rfl, rfl, rfl, rfl, rfl, rfl, rfl⟩

/-- C3: the (rounded) dividend-yield estimate is 0 whenever the current price
is non-positive or the dividend history is empty, and otherwise equals the
average of the last at-most-4 dividends, times 12, divided by the price, times
100, rounded to 2 decimals. -/
theorem C3_dividend_yield (divs : List ℚ) (price : ℚ) :
    round2 (_safe_dividend_calc (Except.ok divs) price) =
      if price ≤ 0 ∨ divs = [] then 0
      else round2 (listMean (tail4 divs) * 12 / price * 100) := by
  simp only [_safe_dividend_calc]
  rcases le_or_lt price 0 with hp | hp
  · rw [if_neg (fun h => absurd h.2 (not_lt.mpr hp)), if_pos (Or.inl hp), round2_zero]
  · rcases eq_or_ne divs [] with rfl | hne
    · rw [if_neg (by simp), if_pos (Or.inr rfl), round2_zero]
    · rw [if_pos ⟨List.length_pos.mpr hne, hp⟩,
        if_neg (not_or.mpr ⟨not_le.mpr hp, hne⟩)]

/-- C4 counterexample: the claim says no record with non-positive current price
is ever emitted, but the live path performs no positivity check: a price
history whose most recent close is 0 (bars (open 1, close 5) then
(open 1, close 0)) yields a record with current price 0. -/
theorem C4_counterexample :
    (_get_yfinance_data "VALE3.SA"
        ⟨Except.ok [⟨1, 5⟩, ⟨1, 0⟩], Except.ok ⟨none, none⟩, Except.ok []⟩ 0).map
      Ativo.preco_atual = some 0 := by
  rw [yfinance_eq "VALE3.SA" ⟨Except.ok [⟨1, 5⟩, ⟨1, 0⟩], Except.ok ⟨none, none⟩,
    Except.ok []⟩ 0 [⟨1, 5⟩, ⟨1, 0⟩] rfl (by simp)]
  show some (round2 0) = some 0
  rw [round2_zero]

/-- C4 (amended): every fallback-path record has a strictly positive current
price (all mock prices and the 10.0 default are positive), and a live-path
record's current price equals the most recent close rounded to 2 decimals,
with no positivity check applied to it. -/
theorem C4_price_amended (simbolo : String) (ticker : TickerData) (now : ℕ)
    (hist : List Bar) (hh : ticker.hist = Except.ok hist) (hne : hist ≠ []) :
    (_get_fallback_data simbolo now).map Ativo.preco_atual = some (_get_mock_price simbolo) ∧
    0 < _get_mock_price simbolo ∧
    (_get_yfinance_data simbolo ticker now).map Ativo.preco_atual =
      some (round2 (hist.getLastD default).close) := by
  refine ⟨rfl, mock_price_pos simbolo, ?_⟩
  rw [yfinance_eq simbolo ticker now hist hh hne]
  rfl

/-- Witness for C4 (amended) at VALE3.SA with a one-bar history. -/
theorem C4_price_amended_witness :
    (_get_fallback_data "VALE3.SA" 0).map Ativo.preco_atual =
      some (_get_mock_price "VALE3.SA") ∧
    0 < _get_mock_price "VALE3.SA" ∧
    (_get_yfinance_data "VALE3.SA"
        ⟨Except.ok [⟨2, 5⟩], Except.error (), Except.ok []⟩ 0).map Ativo.preco_atual =
      some (round2 (([⟨2, 5⟩] : List Bar).getLastD default).close) :=
  C4_price_amended "VALE3.SA" ⟨Except.ok [⟨2, 5⟩], Except.error (), Except.ok []⟩ 0
    [⟨2, 5⟩] rfl (by simp)

theorem collect_append (step : String → Except Unit (Option Ativo)) (xs ys : List String) :
    collect step (xs ++ ys) = collect step xs ++ collect step ys := by
  induction xs with
  | nil => rfl
  | cons s rest ih =>
    cases hs : step s with
    | error e => simp only [List.cons_append, collect, hs, List.append_eq, ih]
    | ok o =>
      cases o with
      | none => simp only [List.cons_append, collect, hs, List.append_eq, ih]
      | some dados => simp only [List.cons_append, collect, hs, List.append_eq, ih]

/-- C5: an exception raised by the per-symbol body (`step s = Except.error ()`)
is caught at the collection loop: the symbol is skipped and iteration continues
with the remaining symbols, so the cycle never propagates a per-symbol
exception (`get_ativos_info` is `collect` over the registry symbols and always
returns a plain list). -/
theorem C5_exception_skipped (step : String → Except Unit (Option Ativo))
    (xs ys : List String) (s : String) (h : step s = Except.error ()) :
    collect step (xs ++ s :: ys) = collect step xs ++ collect step ys := by
  rw [collect_append]
  congr 1
  simp only [collect, h]

/-- Witness for C5: the step raises on PETR4.SA and the loop proceeds to the
remaining symbols. -/
theorem C5_exception_skipped_witness :
    collect stepW (["MXRF11.SA"] ++ "PETR4.SA" :: ["BOVA11.SA"]) =
      collect stepW ["MXRF11.SA"] ++ collect stepW ["BOVA11.SA"] :=
  C5_exception_skipped stepW ["MXRF11.SA"] ["BOVA11.SA"] "PETR4.SA" rfl

/-- C6: when the metadata lookup raises while the price history succeeds, the
fetch still returns a record, with the static fallback display name (the raw
symbol when no fallback name exists) and the unknown-sector default "N/A". -/
theorem C6_metadata_partial (simbolo : String) (ticker : TickerData) (now : ℕ)
    (hist : List Bar) (hh : ticker.hist = Except.ok hist) (hne : hist ≠ [])
    (hi : ticker.info = Except.error ()) :
    (_get_yfinance_data simbolo ticker now).map Ativo.nome =
      some ((nomes_fallback.lookup simbolo).getD simbolo) ∧
    (_get_yfinance_data simbolo ticker now).map Ativo.setor = some "N/A" := by
  rw [yfinance_eq simbolo ticker now hist hh hne, hi]
  exact ⟨rfl, rfl⟩

/-- Witness for C6 at VALE3.SA with a failing metadata lookup. -/
theorem C6_metadata_partial_witness :
    (_get_yfinance_data "VALE3.SA"
        ⟨Except.ok [⟨2, 5⟩], Except.error (), Except.ok []⟩ 0).map Ativo.nome =
      some ((nomes_fallback.lookup "VALE3.SA").getD "VALE3.SA") ∧
    (_get_yfinance_data "VALE3.SA"
        ⟨Except.ok [⟨2, 5⟩], Except.error (), Except.ok []⟩ 0).map Ativo.setor =
      some "N/A" :=
  C6_metadata_partial "VALE3.SA" ⟨Except.ok [⟨2, 5⟩], Except.error (), Except.ok []⟩ 0
    [⟨2, 5⟩] rfl (by simp) rfl

/-- C7: for a successful live fetch the day change is
`round2 ((current - prior) / prior * 100)` with current the most recent close
and prior the most recent open (or, with a single bar, the earliest close);
with a single bar, prior equals current and the day change is 0. -/
theorem C7_day_change (simbolo : String) (ticker : TickerData) (now : ℕ)
    (hist : List Bar) (hh : ticker.hist = Except.ok hist) (hne : hist ≠ []) :
    (_get_yfinance_data simbolo ticker now).map Ativo.variacao_dia =
      some (round2 ((((hist.getLastD default).close -
          (if 1 < hist.length then (hist.getLastD default).opn
           else (hist.headD default).close)) /
          (if 1 < hist.length then (hist.getLastD default).opn
           else (hist.headD default).close)) * 100)) ∧
    (hist.length = 1 →
      (if 1 < hist.length then (hist.getLastD default).opn
       else (hist.headD default).close) = (hist.getLastD default).close ∧
      (_get_yfinance_data simbolo ticker now).map Ativo.variacao_dia = some 0) := by
  rw [yfinance_eq simbolo ticker now hist hh hne]
  refine ⟨rfl, fun h1 => ?_⟩
  obtain ⟨b, rfl⟩ := List.length_eq_one.mp h1
  refine ⟨rfl, ?_⟩
  show some (round2 ((b.close - b.close) / b.close * 100)) = some 0
  rw [sub_self, zero_div, zero_mul, round2_zero]

/-- Witness for C7 at BBAS3.SA with the single bar (open 3, close 7). -/
theorem C7_day_change_witness :
    (_get_yfinance_data "BBAS3.SA"
        ⟨Except.ok [⟨3, 7⟩], Except.error (), Except.ok []⟩ 0).map Ativo.variacao_dia =
      some (round2 (((([⟨3, 7⟩] : List Bar).getLastD default).close -
          (if 1 < ([⟨3, 7⟩] : List Bar).length then (([⟨3, 7⟩] : List Bar).getLastD default).opn
           else (([⟨3, 7⟩] : List Bar).headD default).close)) /
          (if 1 < ([⟨3, 7⟩] : List Bar).length then (([⟨3, 7⟩] : List Bar).getLastD default).opn
           else (([⟨3, 7⟩] : List Bar).headD default).close) * 100)) ∧
    (([⟨3, 7⟩] : List Bar).length = 1 →
      (if 1 < ([⟨3, 7⟩] : List Bar).length then (([⟨3, 7⟩] : List Bar).getLastD default).opn
       else (([⟨3, 7⟩] : List Bar).headD default).close) =
        (([⟨3, 7⟩] : List Bar).getLastD default).close ∧
      (_get_yfinance_data "BBAS3.SA"
          ⟨Except.ok [⟨3, 7⟩], Except.error (), Except.ok []⟩ 0).map Ativo.variacao_dia =
        some 0) :=
  C7_day_change "BBAS3.SA" ⟨Except.ok [⟨3, 7⟩], Except.error (), Except.ok []⟩ 0
    [⟨3, 7⟩] rfl (by simp)

/-- C8: every record returned by the per-symbol fetch (live path or fallback
path) has its price, dividend-yield and last-dividend fields already rounded
to 2 decimal places (each field is a fixed point of `round2`). -/
theorem C8_rounded (simbolo : String) (ticker : TickerData) (now : ℕ) (r : Ativo)
    (h : processar_simbolo simbolo ticker now = some r) :
    round2 r.preco_atual = r.preco_atual ∧
    round2 r.dividend_yield = r.dividend_yield ∧
    round2 r.ultimo_dividendo = r.ultimo_dividendo := by
  unfold processar_simbolo at h
  cases hy : _get_yfinance_data simbolo ticker now with
  | some d =>
    rw [hy] at h
    replace h : some d = some r := h
    injection h with h
    subst h
    cases hh : ticker.hist with
    | error e =>
      rw [yfinance_none simbolo ticker now (Or.inr (by rw [hh]))] at hy
      exact absurd hy (by simp)
    | ok hist =>
      rcases eq_or_ne hist [] with rfl | hne
      · rw [yfinance_none simbolo ticker now (Or.inl hh)] at hy
        exact absurd hy (by simp)
      · rw [yfinance_eq simbolo ticker now hist hh hne] at hy
        injection hy with hy
        rw [← hy]
        exact ⟨round2_round2 _, round2_round2 _, round2_round2 _⟩
  | none =>
    rw [hy] at h
    replace h : _get_fallback_data simbolo now = some r := h
    unfold _get_fallback_data at h
    injection h with h
    rw [← h]
    refine ⟨mock_price_round2 simbolo, ?_, ?_⟩
    · show round2 6.5 = 6.5
      norm_num [round2]
    · show round2 0.50 = 0.50
      norm_num [round2]

/-- Witness for C8 on the fallback record of MXRF11.SA. -/
theorem C8_rounded_witness :
    round2 (10.25 : ℚ) = 10.25 ∧ round2 (6.5 : ℚ) = 6.5 ∧ round2 (0.50 : ℚ) = 0.50 :=
  C8_rounded "MXRF11.SA" ⟨Except.ok [], Except.error (), Except.error ()⟩ 0
    { simbolo := "MXRF11", nome := "Maxi Renda FII", tipo := "FII",
      preco_atual := 10.25, dividend_yield := 6.5, ultimo_dividendo := 0.50,
      frequencia_pagamento := "Trimestral", setor := "N/A", variacao_dia := 0,
      atualizado_em := 0 } (by rw [C1_fallback_record "MXRF11.SA" _ 0 (Or.inl rfl)]; rfl)

/-- Concrete rows used by the persistence witnesses. -/
def ativoA : Ativo :=
  ⟨"MXRF11", "Maxi Renda FII", "FII", 10, 1, 1, "Mensal", "N/A", 0, 0⟩

/-- A later observation for the same symbol as `ativoA`. -/
def ativoB : Ativo :=
  ⟨"MXRF11", "Maxi Renda FII", "FII", 11, 2, 1, "Mensal", "N/A", 0, 1⟩

/-- A row for a different symbol. -/
def ativoC : Ativo :=
  ⟨"VALE3", "Vale SA", "ACAO", 68, 3, 1, "Trimestral/Semestral", "N/A", 0, 0⟩

theorem mem_upsert_iff (db : List Ativo) (a x : Ativo) (h : x.simbolo ≠ a.simbolo) :
    x ∈ upsert db a ↔ x ∈ db := by
  unfold upsert
  rw [List.mem_append, List.mem_filter, List.mem_singleton]
  constructor
  · rintro (⟨hx, _⟩ | rfl)
    · exact hx
    · exact absurd rfl h
  · intro hx
    exact Or.inl ⟨hx, bne_iff_ne.mpr h⟩

theorem mem_salvar_iff (db ativos : List Ativo) (x : Ativo)
    (h : x.simbolo ∉ ativos.map Ativo.simbolo) :
    x ∈ salvar_ativos db ativos ↔ x ∈ db := by
  induction ativos generalizing db with
  | nil => exact Iff.rfl
  | cons a rest ih =>
    simp only [List.map_cons, List.mem_cons] at h
    push_neg at h
    show x ∈ salvar_ativos (upsert db a) rest ↔ x ∈ db
    rw [ih (upsert db a) h.2]
    exact mem_upsert_iff db a x h.1

/-- C9: the store upsert is idempotent per symbol: writing a record and then a
second record with the same symbol is the same as writing only the second, and
it leaves exactly one stored row for that symbol holding the latest values. -/
theorem C9_upsert_idempotent (db : List Ativo) (r r' : Ativo)
    (h : r.simbolo = r'.simbolo) :
    salvar_ativos (salvar_ativos db [r]) [r'] = salvar_ativos db [r'] ∧
    (salvar_ativos (salvar_ativos db [r]) [r']).filter
        (fun x => x.simbolo == r'.simbolo) = [r'] := by
  have key : salvar_ativos (salvar_ativos db [r]) [r'] = salvar_ativos db [r'] := by
    show upsert (upsert db r) r' = upsert db r'
    unfold upsert
    rw [List.filter_append, List.filter_filter]
    have h1 : List.filter (fun x => x.simbolo != r'.simbolo) [r] = [] := by
      simp [h]
    have h2 : (List.filter (fun x => (x.simbolo != r'.simbolo) &&
        (x.simbolo != r.simbolo)) db) =
        List.filter (fun x => x.simbolo != r'.simbolo) db := by
      apply List.filter_congr
      intro x _
      rw [h, Bool.and_self]
    rw [h1, h2, List.append_nil]
  refine ⟨key, ?_⟩
  rw [key]
  show List.filter _ (upsert db r') = [r']
  unfold upsert
  rw [List.filter_append, List.filter_filter]
  have h3 : List.filter (fun x => (x.simbolo == r'.simbolo) &&
      (x.simbolo != r'.simbolo)) db = [] := by
    apply List.filter_eq_nil_iff.mpr
    intro x _
    simp [bne]
  have h4 : List.filter (fun x => x.simbolo == r'.simbolo) [r'] = [r'] := by
    simp
  rw [h3, h4, List.nil_append]

/-- Witness for C9: two observations of MXRF11 written in sequence. -/
theorem C9_upsert_idempotent_witness :
    salvar_ativos (salvar_ativos [ativoC] [ativoA]) [ativoB] =
      salvar_ativos [ativoC] [ativoB] ∧
    (salvar_ativos (salvar_ativos [ativoC] [ativoA]) [ativoB]).filter
        (fun x => x.simbolo == ativoB.simbolo) = [ativoB] :=
  C9_upsert_idempotent [ativoC] ativoA ativoB rfl

/-- C10: saving a snapshot only touches the rows of the symbols present in the
saved list: a stored row whose symbol is absent from the list is unchanged, so
it still appears when the store is read back (`carregar_ativos` is a sort, a
permutation of the stored rows). -/
theorem C10_frame (db ativos : List Ativo) (x : Ativo)
    (h : x.simbolo ∉ ativos.map Ativo.simbolo) :
    (x ∈ salvar_ativos db ativos ↔ x ∈ db) ∧
    (x ∈ carregar_ativos (salvar_ativos db ativos) ↔ x ∈ db) := by
  have h1 := mem_salvar_iff db ativos x h
  refine ⟨h1, ?_⟩
  unfold carregar_ativos
  rw [(List.mergeSort_perm (salvar_ativos db ativos) _).mem_iff]
  exact h1

/-- Witness for C10: the VALE3 row survives a save that only contains MXRF11. -/
theorem C10_frame_witness :
    (ativoC ∈ salvar_ativos [ativoC] [ativoA] ↔ ativoC ∈ [ativoC]) ∧
    (ativoC ∈ carregar_ativos (salvar_ativos [ativoC] [ativoA]) ↔ ativoC ∈ [ativoC]) :=
  C10_frame [ativoC] [ativoA] ativoC (by simp [ativoA, ativoC])
